import Mathlib

/-!
Verification of the function-machine parser (src/parser.ts).

The repository's grammar file (parser.ts, class G) is embedded faithfully below.
The combinator engine it builds on (combinators.ts, class Parser) and the token
and AST catalogues (lexer.ts, ast.ts) are referenced by parser.ts but are not
part of the source tree given under src/, so they are modelled from the
specification (sections 3, 4.1, 6, 7): parsing units over a token list and a
cursor, sequencing with flattened-list results, ordered choice, one-or-more and
zero-or-more repetition, value transformers, and a top-level driver that demands
full consumption.  JS dynamic values circulating through transformers (tokens,
strings, arrays, AST nodes, undefined) are modelled by the inductive type Val.
-/

/-- TokenKind of the lexer interface (spec section 3): the closed enumeration of
token types the grammar inspects. -/
inductive TokenType where
  | NUMBER
  | SYMBOL
  | LPAREN
  | RPAREN
  | LANGLE
  | RANGLE
  | LBRACKET
  | RBRACKET
  | IGNORE
deriving DecidableEq, Repr

/-- Token of the lexer interface (spec section 3): a type tag and the matched text. -/
structure Token where
  type : TokenType
  characters : String
deriving DecidableEq, Repr

/-- Synthesized attribute mapping carried by AST nodes.  Only arg_count and
arity are ever written by the grammar (spec section 9); absent keys are none.
arg_count is an Option Int: none models the JS undefined/NaN cases, which are
unreachable for grammar-produced nodes. -/
structure Attrs where
  arg_count : Option Int := none
  arity : Option Nat := none
deriving DecidableEq, Repr

/-- Modelled from the spec: the dynamic (JavaScript) values produced by parsing
units and consumed by transformer functions of parser.ts.  combinators.ts and
ast.ts are absent from src/, so the value universe is reconstructed from the
spec's data model (section 3) and the transformers of parser.ts: raw tokens,
strings, arrays (repetition results and array-valued transformer results),
flattened sequence values (seqv, produced by sequencing), the AST node variants
of the catalogue, and undefined. -/
inductive Val where
  | undefined
  | tok (t : Token)
  | str (s : String)
  | arr (elems : List Val)
  | seqv (elems : List Val)
  | Num (value : Int) (attrs : Attrs)
  | Symbol (name : String) (attrs : Attrs)
  | AnonymousFunction (args : Val) (body : Val) (attrs : Attrs)
  | FunctionApplication (func : Val) (args : Val) (attrs : Attrs)
  | ClosureApplication (func : Val) (args : Val) (attrs : Attrs)
  | BuiltinPlus (attrs : Attrs)
  | BuiltinMinus (attrs : Attrs)
  | BuiltinTimes (attrs : Attrs)
  | BuiltinDivide (attrs : Attrs)
  | BuiltinEqual (attrs : Attrs)
  | BuiltinModulo (attrs : Attrs)
  | BuiltinLessThan (attrs : Attrs)
  | BuiltinGreaterThan (attrs : Attrs)
  | BuiltinLessThanEqual (attrs : Attrs)
  | BuiltinGreaterThanEqual (attrs : Attrs)
  | BuiltinAnd (attrs : Attrs)
  | BuiltinOr (attrs : Attrs)
  | BuiltinNot (attrs : Attrs)
  | BuiltinXor (attrs : Attrs)
  | BuiltinApplication (func : Val) (args : Val) (attrs : Attrs)
  | IfExpression (test : Val) (true_branch : Val) (false_branch : Val) (attrs : Attrs)
  | LetExpressions (binding_pairs : Val) (body : Val) (attrs : Attrs)
  | BindingPair (lhs : Val) (value : Val) (attrs : Attrs)
  | Tuple (elems : Val) (attrs : Attrs)
  | List (elems : Val) (attrs : Attrs)

/-- Modelled from the spec: outcome of applying one parsing unit (spec section
4.1).  Success carries the value and the advanced cursor; local failure leaves
the state unchanged (no cursor is carried); fatal models an uncaught exception
thrown inside a transformer (the internal-consistency fault of spec section 7),
which is not recoverable by choice or repetition. -/
inductive PRes where
  | ok (value : Val) (pos : Nat)
  | fail
  | fatal (msg : String)

/-- Modelled from the spec: outcome of the top-level driver (spec sections 6, 7):
a sequence of top-level results, a terminal parse failure, or a propagated
internal fault. -/
inductive POut where
  | success (value : Val)
  | failure
  | fatal (msg : String)

/-- Modelled from the spec: a parsing unit is applied to the (read-only) token
sequence and a cursor position. -/
abbrev Parser := List Token → Nat → PRes

/-- Modelled from the spec: Parser.m of combinators.ts - succeeds consuming
exactly one token iff the predicate holds of it; fails without consumption
otherwise.  The only primitive that inspects raw tokens. -/
def Parser.m (pred : Token → Bool) : Parser := fun toks pos =>
  match toks.get? pos with
  | some t => if pred t then .ok (.tok t) (pos + 1) else .fail
  | none => .fail

/-- Modelled from the spec: ordered alternation (.or of combinators.ts).  The
first alternative is attempted first; on its local failure the second is
attempted from the original position.  A fatal fault is not recovered. -/
def Parser.or (p q : Parser) : Parser := fun toks pos =>
  match p toks pos with
  | .ok v pos1 => .ok v pos1
  | .fail => q toks pos
  | .fatal m => .fatal m

/-- Modelled from the spec: the value of a sequence is a flattened list (spec
section 4.1); toChain views a value as its list of chain elements - sequence
values are spliced, every other value is a single element. -/
def toChain : Val → List Val
  | .seqv vs => vs
  | v => [v]

/-- Modelled from the spec: sequencing (.then of combinators.ts; named pthen
because then is reserved in Lean).  Both units must succeed in order; the
result is the flattened list of both chain values; on failure no partial
consumption is observable. -/
def Parser.pthen (p q : Parser) : Parser := fun toks pos =>
  match p toks pos with
  | .ok v1 pos1 =>
    (match q toks pos1 with
     | .ok v2 pos2 => .ok (.seqv (toChain v1 ++ toChain v2)) pos2
     | .fail => .fail
     | .fatal m => .fatal m)
  | .fail => .fail
  | .fatal m => .fatal m

/-- Modelled from the spec: the collecting loop shared by the repetition
combinators - apply the unit until it fails, accumulating values; repetition
never partially consumes a failing final attempt.  The fuel argument bounds the
iteration count; every repeated unit of the grammar consumes at least one token
on success, so fuel of remaining-tokens plus one is never exhausted. -/
def Parser.manyFrom (p : Parser) : Nat → List Token → Nat → List Val → PRes
  | 0, _, pos, acc => .ok (.arr acc.reverse) pos
  | fuel + 1, toks, pos, acc =>
    match p toks pos with
    | .ok v pos1 => p.manyFrom fuel toks pos1 (v :: acc)
    | .fail => .ok (.arr acc.reverse) pos
    | .fatal m => .fatal m

/-- Modelled from the spec: zero-or-more repetition (.zero_or_more of
combinators.ts) - collects an ordered array of results, possibly empty. -/
def Parser.zero_or_more (p : Parser) : Parser := fun toks pos =>
  p.manyFrom (toks.length + 1 - pos) toks pos []

/-- Modelled from the spec: one-or-more repetition (.many of combinators.ts) -
requires at least one success, else fails. -/
def Parser.many (p : Parser) : Parser := fun toks pos =>
  match p toks pos with
  | .ok v pos1 => p.manyFrom (toks.length + 1 - pos1) toks pos1 [v]
  | .fail => .fail
  | .fatal m => .fatal m

/-- Modelled from the spec: .transformer of combinators.ts - succeeds iff the
underlying unit succeeds, with the transformation applied to its value.
Transformers compose: a transformer attached to an already-transformed unit
receives the transformed value.  A thrown exception (Except.error) becomes a
fatal fault. -/
def Parser.transformer (p : Parser) (f : Val → Except String Val) : Parser := fun toks pos =>
  match p toks pos with
  | .ok v pos1 =>
    (match f v with
     | .ok w => .ok w pos1
     | .error m => .fatal m)
  | .fail => .fail
  | .fatal m => .fatal m

/-- Modelled from the spec: .parse_input of combinators.ts, the top-level driver
(run of spec section 4.1) - applies the unit at position 0 and fails terminally
if the unit fails or trailing unconsumed tokens remain. -/
def Parser.parse_input (p : Parser) (toks : List Token) : POut :=
  match p toks 0 with
  | .ok v pos => if pos = toks.length then .success v else .failure
  | .fail => .failure
  | .fatal m => .fatal m

/-- Modelled from the spec: JS indexing v[i] as used by the transformers of
parser.ts - index into sequence chain values and arrays (undefined when out of
range), into strings (yielding a one-character string), undefined on anything
else (property access on a non-indexable object). -/
def valIndex : Val → Nat → Val
  | .seqv vs, i => vs.getD i .undefined
  | .arr vs, i => vs.getD i .undefined
  | .str s, i =>
    (match s.data.get? i with
     | some c => .str (String.mk [c])
     | none => .undefined)
  | _, _ => .undefined

/-- Modelled from the spec: the .characters property read by the word_set
transformer; undefined on a non-token value (unreachable there). -/
def valCharacters : Val → Val
  | .tok t => .str t.characters
  | _ => .undefined

/-- Modelled from the spec: JS .length as read by the grammar transformers -
defined on arrays (and strings), undefined elsewhere. -/
def valLength : Val → Option Int
  | .arr vs => some (vs.length : Int)
  | .seqv vs => some (vs.length : Int)
  | .str s => some (s.length : Int)
  | _ => none

/-- Modelled from the spec: the attrs mapping of an AST node value; none for a
non-node value (where JS property access would yield undefined or throw -
unreachable in every grammar transformer). -/
def attrsOf : Val → Option Attrs
  | .Num _ a => some a
  | .Symbol _ a => some a
  | .AnonymousFunction _ _ a => some a
  | .FunctionApplication _ _ a => some a
  | .ClosureApplication _ _ a => some a
  | .BuiltinPlus a => some a
  | .BuiltinMinus a => some a
  | .BuiltinTimes a => some a
  | .BuiltinDivide a => some a
  | .BuiltinEqual a => some a
  | .BuiltinModulo a => some a
  | .BuiltinLessThan a => some a
  | .BuiltinGreaterThan a => some a
  | .BuiltinLessThanEqual a => some a
  | .BuiltinGreaterThanEqual a => some a
  | .BuiltinAnd a => some a
  | .BuiltinOr a => some a
  | .BuiltinNot a => some a
  | .BuiltinXor a => some a
  | .BuiltinApplication _ _ a => some a
  | .IfExpression _ _ _ a => some a
  | .LetExpressions _ _ a => some a
  | .BindingPair _ _ a => some a
  | .Tuple _ a => some a
  | .List _ a => some a
  | _ => none

/-- Modelled from the spec: the attrs.arg_count read performed by the
func_application and closure transformers. -/
def attrArgCount (v : Val) : Option Int :=
  match attrsOf v with
  | some a => a.arg_count
  | none => none

/-- Modelled from the spec: JS numeric subtraction on possibly-undefined
operands - an undefined operand yields NaN, modelled as none. -/
def jsSubO : Option Int → Option Int → Option Int
  | some a, some b => some (a - b)
  | _, _ => none

/-- Modelled from the spec: the JS idiom of concatenating a one-element array
with a further array of results, as written in the tuple, data-list and generic
list transformers of parser.ts. -/
def jsConcat1 (a b : Val) : Val :=
  match b with
  | .arr vs => .arr (a :: vs)
  | .seqv vs => .arr (a :: vs)
  | v => .arr [a, v]

/-- Accumulate the decimal value of a digit character list (character code 48
is the digit zero). -/
def digitsAcc : List Char → Nat → Nat
  | [], acc => acc
  | c :: cs, acc => digitsAcc cs (acc * 10 + (c.toNat - 48))

/-- Modelled from the spec: parseInt as applied by parser.ts to the text of a
NUMBER token, which carries a decimal integer literal - an optional leading
minus sign (character code 45) followed by decimal digits. -/
def parseIntJS (s : String) : Int :=
  match s.data with
  | c :: cs =>
    if c.toNat = 45 then -(Int.ofNat (digitsAcc cs 0)) else Int.ofNat (digitsAcc (c :: cs) 0)
  | [] => 0

/-- Grammar rule word of parser.ts: matches the one token whose text equals the
given word. -/
def G.word (w : String) : Parser := Parser.m (fun t => t.characters = w)

/-- Grammar rule word_set of parser.ts: ordered choice over the given words
(built by a left fold exactly as the reduce of the source), transformed to the
matched token's text. -/
def G.word_set (ws : List String) : Parser :=
  Parser.transformer
    (match ws.map G.word with
     | [] => fun _ _ => PRes.fail
     | p :: rest => rest.foldl Parser.or p)
    (fun v => .ok (valCharacters v))

/-- Grammar rule num of parser.ts: one NUMBER token, transformed to a Num node. -/
def G.num : Parser :=
  (Parser.m (fun t => t.type = TokenType.NUMBER)).transformer
    (fun v =>
      match v with
      | .tok t => .ok (.Num (parseIntJS t.characters) {})
      | _ => .error "TypeError")

/-- Grammar rule symb of parser.ts: one SYMBOL token, transformed to a Symbol node. -/
def G.symb : Parser :=
  (Parser.m (fun t => t.type = TokenType.SYMBOL)).transformer
    (fun v =>
      match v with
      | .tok t => .ok (.Symbol t.characters {})
      | _ => .error "TypeError")

/-- Grammar rule lparen of parser.ts. -/
def G.lparen : Parser := Parser.m (fun t => t.type = TokenType.LPAREN)

/-- Grammar rule rparen of parser.ts. -/
def G.rparen : Parser := Parser.m (fun t => t.type = TokenType.RPAREN)

/-- Grammar rule langle of parser.ts. -/
def G.langle : Parser := Parser.m (fun t => t.type = TokenType.LANGLE)

/-- Grammar rule rangle of parser.ts. -/
def G.rangle : Parser := Parser.m (fun t => t.type = TokenType.RANGLE)

/-- Grammar rule lbracket of parser.ts. -/
def G.lbracket : Parser := Parser.m (fun t => t.type = TokenType.LBRACKET)

/-- Grammar helper parenthesize of parser.ts: lparen, the unit, rparen. -/
def G.parenthesize (p : Parser) : Parser := (G.lparen.pthen p).pthen G.rparen

/-- Grammar rule rbracket of parser.ts. -/
def G.rbracket : Parser := Parser.m (fun t => t.type = TokenType.RBRACKET)

/-- Grammar rule symbol_list of parser.ts: a parenthesized one-or-more list of
symbols, transformed to the collected symbol array x[1]. -/
def G.symbol_list : Parser :=
  (G.parenthesize G.symb.many).transformer (fun v => .ok (valIndex v 1))

/-- Grammar rule anonymous_func of parser.ts: (fun (sym*) s-expr).  The source's
delayed_sexpr indirection (Parser.delay) is rendered as the sexpr parameter.
Sets arg_count to the declared parameter count. -/
def G.anonymous_func (sexpr : Parser) : Parser :=
  (G.parenthesize (((G.word "fun").pthen G.symbol_list).pthen sexpr)).transformer
    (fun v => .ok (.AnonymousFunction (valIndex v 2) (valIndex v 3)
      {arg_count := valLength (valIndex v 2)}))

/-- Grammar rule func_application of parser.ts.  Note the source wraps the body
in parenthesize while the body itself already ends with G.rparen, so the
production consumes two closing parens.  Sets arg_count to the function's
declared arg_count minus the supplied argument count. -/
def G.func_application (sexpr : Parser) : Parser :=
  (G.parenthesize (((G.anonymous_func sexpr).pthen sexpr.zero_or_more).pthen G.rparen)).transformer
    (fun v => .ok (.FunctionApplication (valIndex v 1) (valIndex v 2)
      {arg_count := jsSubO (attrArgCount (valIndex v 1)) (valLength (valIndex v 2))}))

/-- Grammar rule closure of parser.ts: an applied function followed by further
arguments, decrementing the running arg_count by the newly supplied count. -/
def G.closure (sexpr : Parser) : Parser :=
  (G.parenthesize ((G.func_application sexpr).pthen sexpr.zero_or_more)).transformer
    (fun v => .ok (.ClosureApplication (valIndex v 1) (valIndex v 2)
      {arg_count := jsSubO (attrArgCount (valIndex v 1)) (valLength (valIndex v 2))}))

/-- Grammar rule builtins of parser.ts: the word-set of builtin operator names,
transformed by a switch on x[0] (the first character of the matched text) in
the source's case order, with the default case throwing "Unknown builtin.". -/
def G.builtins : Parser :=
  (G.word_set ["+", "-", "*", "/", "=", "%", "lt", "gt", "lte", "gte"]).transformer
    (fun v =>
      match valIndex v 0 with
      | .str "+" => .ok (.BuiltinPlus {arity := some 2})
      | .str "-" => .ok (.BuiltinMinus {arity := some 2})
      | .str "*" => .ok (.BuiltinTimes {arity := some 2})
      | .str "/" => .ok (.BuiltinDivide {arity := some 2})
      | .str "=" => .ok (.BuiltinEqual {arity := some 2})
      | .str "%" => .ok (.BuiltinModulo {arity := some 2})
      | .str "lt" => .ok (.BuiltinLessThan {arity := some 2})
      | .str "gt" => .ok (.BuiltinGreaterThan {arity := some 2})
      | .str "lte" => .ok (.BuiltinLessThanEqual {arity := some 2})
      | .str "gte" => .ok (.BuiltinGreaterThanEqual {arity := some 2})
      | .str "and" => .ok (.BuiltinAnd {arity := some 2})
      | .str "or" => .ok (.BuiltinOr {arity := some 2})
      | .str "not" => .ok (.BuiltinNot {arity := some 1})
      | .str "xor" => .ok (.BuiltinXor {arity := some 1})
      | _ => .error "Unknown builtin.")

/-- Grammar rule builtin of parser.ts: a parenthesized builtin followed by the
argument expressions; the transformer reads non_parens = x[1] and takes
non_parens[0] as the callee and non_parens[1] as the argument array. -/
def G.builtin (sexpr : Parser) : Parser :=
  (G.parenthesize (G.builtins.pthen sexpr.zero_or_more)).transformer
    (fun v => .ok (.BuiltinApplication (valIndex (valIndex v 1) 0) (valIndex (valIndex v 1) 1) {}))

/-- Grammar rule if_expression of parser.ts: (if s-expr s-expr s-expr). -/
def G.if_expression (sexpr : Parser) : Parser :=
  (G.parenthesize ((((G.word "if").pthen sexpr).pthen sexpr).pthen sexpr)).transformer
    (fun v => .ok (.IfExpression (valIndex v 2) (valIndex v 3) (valIndex v 4) {}))

/-- Grammar rule tuple of parser.ts: a non-empty angle-bracketed sequence of
expressions. -/
def G.tuple (sexpr : Parser) : Parser :=
  ((((G.langle.pthen sexpr).pthen sexpr.zero_or_more).pthen G.rangle)).transformer
    (fun v => .ok (.Tuple (jsConcat1 (valIndex v 1) (valIndex v 2)) {}))

/-- Grammar rule pattern of parser.ts: currently a wildcard deferring to s_expr. -/
def G.pattern (sexpr : Parser) : Parser := sexpr

/-- Grammar rule binding_pair of parser.ts: an angle-bracketed pattern and value. -/
def G.binding_pair (sexpr : Parser) : Parser :=
  ((((G.langle.pthen (G.pattern sexpr)).pthen sexpr).pthen G.rangle)).transformer
    (fun v => .ok (.BindingPair (valIndex v 1) (valIndex v 2) {}))

/-- Grammar rule let_expression of parser.ts: (let binding_pair-many s-expr),
with binding_pair.many being one-or-more repetition. -/
def G.let_expression (sexpr : Parser) : Parser :=
  (G.parenthesize (((G.word "let").pthen (G.binding_pair sexpr).many).pthen sexpr)).transformer
    (fun v => .ok (.LetExpressions (valIndex v 2) (valIndex v 3) {}))

/-- Grammar rule non_empty_data_list of parser.ts: a non-empty bracketed list of
expressions. -/
def G.non_empty_data_list (sexpr : Parser) : Parser :=
  ((((G.lbracket.pthen sexpr).pthen sexpr.zero_or_more).pthen G.rbracket)).transformer
    (fun v => .ok (.List (jsConcat1 (valIndex v 1) (valIndex v 2)) {}))

/-- Grammar rule empty_data_list of parser.ts: the empty list. -/
def G.empty_data_list : Parser :=
  (G.lbracket.pthen G.rbracket).transformer (fun _ => .ok (.List (.arr []) {}))

/-- Grammar rule atomic of parser.ts: the ordered alternation over the atomic
productions, in the exact source order. -/
def G.atomic (sexpr : Parser) : Parser :=
  ((((((((((G.non_empty_data_list sexpr).or G.empty_data_list).or (G.tuple sexpr)).or
    G.num).or (G.builtin sexpr)).or (G.anonymous_func sexpr)).or
    (G.if_expression sexpr)).or (G.func_application sexpr)).or
    (G.let_expression sexpr)).or (G.closure sexpr)).or G.symb

/-- Grammar rule list of parser.ts: the generic non-empty parenthesized list
fallback, producing a plain array of nodes. -/
def G.list (sexpr : Parser) : Parser :=
  (G.parenthesize ((G.atomic sexpr).pthen sexpr.zero_or_more)).transformer
    (fun v => .ok (jsConcat1 (valIndex v 1) (valIndex v 2)))

/-- Grammar rule s_expr of parser.ts: atomic or the generic list, with the
source's delay indirection rendered as structural recursion on a fuel bound.
Every mutually recursive re-entry into s_expr happens at a strictly larger
cursor, so fuel of token-count plus one is never exhausted. -/
def G.s_expr : Nat → Parser
  | 0 => fun _ _ => PRes.fail
  | fuel + 1 => (G.atomic (G.s_expr fuel)).or (G.list (G.s_expr fuel))

/-- The IGNORE-token filter applied by G.parse before grammar application. -/
def filterIgnore (input : List Token) : List Token :=
  input.filter (fun t => !decide (t.type = TokenType.IGNORE))

/-- Grammar driver G.parse of parser.ts: filter out IGNORE tokens, then run
s_expr.many over the remaining tokens, demanding full consumption. -/
def G.parse (input : List Token) : POut :=
  ((G.s_expr ((filterIgnore input).length + 1)).many).parse_input (filterIgnore input)

/-- Left parenthesis token as produced by the lexer interface. -/
def tLP : Token := ⟨TokenType.LPAREN, "("⟩

/-- Right parenthesis token. -/
def tRP : Token := ⟨TokenType.RPAREN, ")"⟩

/-- Left bracket token. -/
def tLB : Token := ⟨TokenType.LBRACKET, "["⟩

/-- Right bracket token. -/
def tRB : Token := ⟨TokenType.RBRACKET, "]"⟩

/-- Left angle token. -/
def tLA : Token := ⟨TokenType.LANGLE, "<"⟩

/-- Right angle token. -/
def tRA : Token := ⟨TokenType.RANGLE, ">"⟩

/-- Number token with the given text. -/
def tNum (s : String) : Token := ⟨TokenType.NUMBER, s⟩

/-- Symbol token with the given text. -/
def tSym (s : String) : Token := ⟨TokenType.SYMBOL, s⟩

/-- Ignorable comma token (separator, tagged IGNORE by the lexer). -/
def tComma : Token := ⟨TokenType.IGNORE, ","⟩

/-- Ignorable whitespace token. -/
def tSpace : Token := ⟨TokenType.IGNORE, " "⟩

/-- Token sequence of the surface program (( fun (x y) (+ x y)) 1). -/
def c1_tokens : List Token :=
  [tLP, tLP, tSym "fun", tLP, tSym "x", tSym "y", tRP,
   tLP, tSym "+", tSym "x", tSym "y", tRP, tRP, tNum "1", tRP]

/-- The c1_tokens program with one extra trailing right paren - the shape the
func_application production actually consumes. -/
def c1x_tokens : List Token := c1_tokens ++ [tRP]

/-- A closure application over the doubled-paren function application, again in
the shape the closure production actually consumes. -/
def c1c_tokens : List Token := [tLP] ++ c1x_tokens ++ [tNum "2", tRP]

/-- The AnonymousFunction node built for (fun (x y) (+ x y)). -/
def anonXY : Val :=
  .AnonymousFunction (.arr [.Symbol "x" {}, .Symbol "y" {}])
    (.BuiltinApplication .undefined .undefined {}) {arg_count := some 2}

/-- Token sequence of (+ 1 2). -/
def c2_tokens : List Token := [tLP, tSym "+", tNum "1", tNum "2", tRP]

/-- Token sequence of the empty data list []. -/
def c4a_tokens : List Token := [tLB, tRB]

/-- Token sequence of the tuple <1,2>, comma tagged IGNORE. -/
def c4b_tokens : List Token := [tLA, tNum "1", tComma, tNum "2", tRA]

/-- Token sequence of (fun (1 2) x) - non-symbol parameter tokens. -/
def c5_tokens : List Token :=
  [tLP, tSym "fun", tLP, tNum "1", tNum "2", tRP, tSym "x", tRP]

/-- Token sequence of (let 5) - a let form with zero binding pairs. -/
def c6_tokens : List Token := [tLP, tSym "let", tNum "5", tRP]

/-- Token sequence of (let <x 1> x) - a let form with one binding pair. -/
def c6p_tokens : List Token :=
  [tLP, tSym "let", tLA, tSym "x", tNum "1", tRA, tSym "x", tRP]

/-- Token sequence of (lt 1 2). -/
def c7_tokens : List Token := [tLP, tSym "lt", tNum "1", tNum "2", tRP]

/-- Token sequence of (+ 1 2) followed by a stray right paren. -/
def c8_tokens : List Token := c2_tokens ++ [tRP]

/-- Tokens of the filterIgnore predicate are kept exactly when they pass it a
second time: filtering is idempotent. -/
theorem filterIgnore_idem (input : List Token) :
    filterIgnore (filterIgnore input) = filterIgnore input := by
  unfold filterIgnore
  apply List.filter_eq_self.mpr
  intro a ha
  exact (List.mem_filter.mp ha).2

/-- Filtering a token sequence consisting only of IGNORE tokens yields the
empty sequence. -/
theorem filterIgnore_eq_nil :
    ∀ input : List Token, (∀ t ∈ input, t.type = TokenType.IGNORE) →
      filterIgnore input = []
  | [], _ => rfl
  | t :: ts, h => by
    have ht : t.type = TokenType.IGNORE := h t (List.mem_cons_self t ts)
    have hts : filterIgnore ts = [] :=
      filterIgnore_eq_nil ts (fun x hx => h x (List.mem_cons_of_mem t hx))
    unfold filterIgnore at hts ⊢
    rw [List.filter_cons]
    simp [ht, hts]

/-- Claim C1: on the code, parsing the token sequence of (( fun (x y) (+ x y)) 1)
does NOT yield a FunctionApplication node: the func_application production wraps
a body already ending in G.rparen inside parenthesize, so it only matches with a
doubled closing paren and fails on the claim's input, which instead falls
through to the generic list fallback and parses to the plain array
[AnonymousFunction, Number 1].  With the extra closing paren that the
implementation actually demands, func_application does fire and its arg_count
bookkeeping is exactly the claimed declared-minus-supplied (2 - 1 = 1), and a
further closure application of one more argument yields arg_count 0. -/
theorem c1_func_application_demands_double_rparen :
    G.func_application (G.s_expr 15) c1_tokens 0 = PRes.fail ∧
    G.parse c1_tokens = POut.success (.arr [.arr [anonXY, .Num 1 {}]]) ∧
    G.parse c1x_tokens = POut.success (.arr [
      .FunctionApplication anonXY (.arr [.Num 1 {}]) {arg_count := some 1}]) ∧
    G.parse c1c_tokens = POut.success (.arr [
      .ClosureApplication
        (.FunctionApplication anonXY (.arr [.Num 1 {}]) {arg_count := some 1})
        (.arr [.Num 2 {}]) {arg_count := some 0}]) :=
  ⟨rfl, rfl, rfl, rfl⟩

/-- Claim C2: on the code, parsing (+ 1 2) succeeds but the BuiltinApplication
node carries undefined callee and undefined argument list: the builtin
transformer reads non_parens = x[1] and then non_parens[0] and non_parens[1],
but in the flattened sequence value x[1] is the builtin node itself (the pair
[builtin, args] sits spliced at x[1], x[2]), so indexing into it yields
undefined - not a BuiltinPlus of arity 2 with the two Number arguments. -/
theorem c2_builtin_application_callee_and_args_undefined :
    G.parse c2_tokens = POut.success (.arr [.BuiltinApplication .undefined .undefined {}]) :=
  rfl

/-- Claim C3 counterexample: the builtin production does not recognize the logic
operator not - the word-set contains only the ten arithmetic and comparison
operator names, so the builtins unit fails on a not token (likewise and, or,
xor), refuting the claim that every logic operator of the language is
recognized with unary not as the sole arity exception. -/
theorem c3_counterexample_not_unrecognized :
    G.builtins [tSym "not"] 0 = PRes.fail ∧
    G.builtins [tSym "and"] 0 = PRes.fail ∧
    G.builtins [tSym "or"] 0 = PRes.fail ∧
    G.builtins [tSym "xor"] 0 = PRes.fail :=
  ⟨rfl, rfl, rfl, rfl⟩

/-- Claim C3 amended: the builtin word-set recognizes exactly the ten
arithmetic and comparison operator names +, -, *, /, =, %, lt, gt, lte, gte;
of these, the six single-character operators are mapped to their builtin AST
variants with arity 2, while the four multi-character ones reach the fatal
Unknown-builtin branch (the switch scrutinizes only the first character of the
matched text); the logic operators and, or, not, xor are not in the word-set at
all and the production fails on them locally. -/
theorem c3_amended_word_set_and_arities :
    G.builtins [tSym "+"] 0 = PRes.ok (.BuiltinPlus {arity := some 2}) 1 ∧
    G.builtins [tSym "-"] 0 = PRes.ok (.BuiltinMinus {arity := some 2}) 1 ∧
    G.builtins [tSym "*"] 0 = PRes.ok (.BuiltinTimes {arity := some 2}) 1 ∧
    G.builtins [tSym "/"] 0 = PRes.ok (.BuiltinDivide {arity := some 2}) 1 ∧
    G.builtins [tSym "="] 0 = PRes.ok (.BuiltinEqual {arity := some 2}) 1 ∧
    G.builtins [tSym "%"] 0 = PRes.ok (.BuiltinModulo {arity := some 2}) 1 ∧
    G.builtins [tSym "lt"] 0 = PRes.fatal "Unknown builtin." ∧
    G.builtins [tSym "gt"] 0 = PRes.fatal "Unknown builtin." ∧
    G.builtins [tSym "lte"] 0 = PRes.fatal "Unknown builtin." ∧
    G.builtins [tSym "gte"] 0 = PRes.fatal "Unknown builtin." ∧
    G.builtins [tSym "and"] 0 = PRes.fail ∧
    G.builtins [tSym "or"] 0 = PRes.fail ∧
    G.builtins [tSym "not"] 0 = PRes.fail ∧
    G.builtins [tSym "xor"] 0 = PRes.fail :=
  ⟨rfl, rfl, rfl, rfl, rfl, rfl, rfl, rfl, rfl, rfl, rfl, rfl, rfl, rfl⟩

/-- Claim C4: the empty bracket pair parses to the empty List node (the
empty_data_list alternative, after non_empty_data_list fails on it) and never
reaches the generic list fallback, which requires a left paren and fails on it;
and the angle form with two numbers parses to the Tuple node with the Number
nodes 1 and 2 in order (the separator comma being IGNORE-filtered). -/
theorem c4_empty_list_and_tuple_disambiguation :
    G.parse c4a_tokens = POut.success (.arr [.List (.arr []) {}]) ∧
    G.empty_data_list c4a_tokens 0 = PRes.ok (.List (.arr []) {}) 2 ∧
    G.list (G.s_expr 3) c4a_tokens 0 = PRes.fail ∧
    G.parse c4b_tokens = POut.success (.arr [.Tuple (.arr [.Num 1 {}, .Num 2 {}]) {}]) :=
  ⟨rfl, rfl, rfl, rfl⟩

/-- Claim C5 counterexample: the token sequence of (fun (1 2) x), with fun lexed
as a SYMBOL token and non-symbol parameter tokens, does NOT fail terminally -
the top-level parse succeeds, producing the generic-list array
[Symbol fun, [Number 1, Number 2], Symbol x]. -/
theorem c5_counterexample_top_level_parse_succeeds :
    G.parse c5_tokens = POut.success (.arr [.arr [
      .Symbol "fun" {}, .arr [.Num 1 {}, .Num 2 {}], .Symbol "x" {}]]) :=
  rfl

/-- Claim C5 amended: the symbol-list production only accepts SYMBOL tokens, so
on (fun (1 2) x) the symbol_list unit and hence the anonymous_func production
fail and no AnonymousFunction node is produced; but the top-level parse does not
fail terminally - the input is caught by the generic list fallback and parses to
a plain array. -/
theorem c5_amended_anonymous_func_rejects_non_symbol_params :
    G.symbol_list [tLP, tNum "1", tNum "2", tRP] 0 = PRes.fail ∧
    G.anonymous_func (G.s_expr 9) c5_tokens 0 = PRes.fail ∧
    G.parse c5_tokens = POut.success (.arr [.arr [
      .Symbol "fun" {}, .arr [.Num 1 {}, .Num 2 {}], .Symbol "x" {}]]) :=
  ⟨rfl, rfl, rfl⟩

/-- Claim C6 counterexample: a let form with zero binding pairs, (let 5), is not
accepted by the let_expression production (binding_pair.many is one-or-more),
and the whole input instead parses through the generic list fallback to the
plain array [Symbol let, Number 5] - not to a LetExpression node with an empty
binding list. -/
theorem c6_counterexample_zero_binding_pairs_rejected :
    G.let_expression (G.s_expr 5) c6_tokens 0 = PRes.fail ∧
    G.parse c6_tokens = POut.success (.arr [.arr [.Symbol "let" {}, .Num 5 {}]]) :=
  ⟨rfl, rfl⟩

/-- Claim C6 amended: the let production requires one or more binding pairs
followed by the body: (let <x 1> x) parses to the LetExpressions node with the
one BindingPair and body Symbol x, while the pair-less (let 5) is rejected by
let_expression. -/
theorem c6_amended_let_requires_at_least_one_pair :
    G.parse c6p_tokens = POut.success (.arr [
      .LetExpressions (.arr [.BindingPair (.Symbol "x" {}) (.Num 1 {}) {}])
        (.Symbol "x" {}) {}]) ∧
    G.let_expression (G.s_expr 5) c6_tokens 0 = PRes.fail :=
  ⟨rfl, rfl⟩

/-- Claim C7: on the code, the fatal Unknown-builtin branch IS reachable from
the word-set: the token lt is accepted by the word-set (the unit succeeds with
the text lt), yet the builtins transformer switches on x[0] - the first
character l of that text - which matches no case label, so the default branch
throws; a whole program (lt 1 2) aborts with the same fatal fault. -/
theorem c7_word_set_member_reaches_fatal_branch :
    (G.word_set ["+", "-", "*", "/", "=", "%", "lt", "gt", "lte", "gte"])
      [tSym "lt"] 0 = PRes.ok (.str "lt") 1 ∧
    G.builtins [tSym "lt"] 0 = PRes.fatal "Unknown builtin." ∧
    G.parse c7_tokens = POut.fatal "Unknown builtin." :=
  ⟨rfl, rfl, rfl⟩

/-- Claim C8: whenever the top rule's repetition stops before consuming the
whole filtered token sequence, G.parse reports a terminal failure and returns
no partial result sequence. -/
theorem c8_unconsumed_trailing_tokens_fail_terminally
    (input : List Token) (v : Val) (pos : Nat)
    (h : (G.s_expr ((filterIgnore input).length + 1)).many (filterIgnore input) 0
      = PRes.ok v pos)
    (hne : pos ≠ (filterIgnore input).length) :
    G.parse input = POut.failure := by
  unfold G.parse Parser.parse_input
  rw [h]
  simp [hne]

/-- Claim C8 witness: the program (+ 1 2) followed by a stray right paren - the
top rule consumes five of the six tokens and the driver fails terminally. -/
theorem c8_witness : G.parse c8_tokens = POut.failure :=
  c8_unconsumed_trailing_tokens_fail_terminally c8_tokens
    (.arr [.BuiltinApplication .undefined .undefined {}]) 5 rfl (by decide)

/-- Claim C9: G.parse is invariant under removing the IGNORE tokens up front -
parsing any input equals parsing its IGNORE-free subsequence, and more generally
any two inputs with the same IGNORE-free subsequence parse identically, so
inserting or deleting IGNORE tokens at any positions never changes the result. -/
theorem c9_parse_invariant_under_ignore_tokens :
    (∀ input : List Token, G.parse input = G.parse (filterIgnore input)) ∧
    (∀ l1 l2 : List Token, filterIgnore l1 = filterIgnore l2 →
      G.parse l1 = G.parse l2) := by
  have key : ∀ l1 l2 : List Token, filterIgnore l1 = filterIgnore l2 →
      G.parse l1 = G.parse l2 := by
    intro l1 l2 h
    unfold G.parse
    rw [h]
  exact ⟨fun input => key input (filterIgnore input) (filterIgnore_idem input).symm, key⟩

/-- Claim C9 witness: a whitespace token in front of a number parses exactly as
the number followed by an ignorable comma. -/
theorem c9_witness : G.parse [tSpace, tNum "1"] = G.parse [tNum "1", tComma] :=
  c9_parse_invariant_under_ignore_tokens.2 [tSpace, tNum "1"] [tNum "1", tComma] rfl

/-- Claim C10: parsing the empty token sequence fails terminally, and so does
parsing any sequence consisting only of IGNORE tokens - the driver applies a
one-or-more repetition of s_expr to the filtered (empty) tokens, which fails. -/
theorem c10_empty_or_ignore_only_input_fails :
    G.parse [] = POut.failure ∧
    ∀ input : List Token, (∀ t ∈ input, t.type = TokenType.IGNORE) →
      G.parse input = POut.failure := by
  refine ⟨rfl, ?_⟩
  intro input h
  unfold G.parse
  rw [filterIgnore_eq_nil input h]
  rfl

/-- Claim C10 witness: a whitespace token and a comma token - both IGNORE - fail
terminally. -/
theorem c10_witness : G.parse [tSpace, tComma] = POut.failure :=
  c10_empty_or_ignore_only_input_fails.2 [tSpace, tComma] (by decide)
